import Mathlib

/-!
Shallow embedding of `examples/jsonrpsee_server_disconnect_conn.rs`:
a jsonrpsee server example with a per-connection rate-limit middleware
(`DummyRateLimit`), a connection-admission guard, a blacklist of banned
peer IPs, and a per-connection supervisor racing the serving future
against a ban signal.
-/

namespace Jsonrpsee

/-- A JSON-RPC request: its id and method name
(embeds `jsonrpsee::types::Request`, keeping only the fields the
example reads: `req.id` and the method used for dispatch). -/
structure Request where
  id : Nat
  method : String
deriving DecidableEq, Inhabited

/-- A method response (`MethodResponse`): either a success payload or an
error carrying the request id, a numeric code and a message
(`MethodResponse::error(req.id, ErrorObject::borrowed(code, msg, None))`). -/
inductive MethodResponse where
  | success (id : Nat) (value : String)
  | error (id : Nat) (code : Int) (message : String)
deriving DecidableEq, Inhabited

/-- The registered RPC method implementation: `say_hello` returns
`Ok("lo".to_string())` (lines 76-81 of the source).  Dispatch of the
method table itself lives in the jsonrpsee crate; here the handler the
middleware wraps answers `say_hello` with the success payload `"lo"`. -/
def sayHelloService (req : Request) : MethodResponse :=
  MethodResponse.success req.id "lo"

/-- State of the capacity-1 `tokio::sync::mpsc` channel used as the
ban signal (`mpsc::channel(1)`): it holds no value, holds its single
buffered value, or is closed (receiver dropped). -/
inductive ChanState where
  | empty
  | full
  | closed
deriving DecidableEq, Inhabited

/-- Non-blocking send (`Sender::try_send`) on the capacity-1 channel:
succeeds exactly when the buffer is empty and the receiver is alive;
never blocks. -/
def trySend : ChanState → ChanState × Bool
  | ChanState.empty => (ChanState.full, true)
  | ChanState.full => (ChanState.full, false)
  | ChanState.closed => (ChanState.closed, false)

/-- Per-connection middleware state: the `AtomicUsize` request counter
and the ban-signal channel the `state` sender feeds. -/
structure MwState where
  count : Nat
  chan : ChanState
deriving DecidableEq, Inhabited

/-- The observable result of one `DummyRateLimit::call`: the response
returned to the caller, the middleware state afterwards, whether the
inner service was invoked, and whether a `try_send` on the ban signal
was attempted resp. succeeded. -/
structure CallResult where
  response : MethodResponse
  state : MwState
  innerInvoked : Bool
  sendAttempted : Bool
  sendSucceeded : Bool
deriving DecidableEq, Inhabited

/-- The middleware call `DummyRateLimit::call` (lines 58-67):
`fetch_add(1)` yields the pre-increment counter value; if it exceeds 10
the middleware attempts a non-blocking send on the ban channel and
answers the error `(-32000, "RPC rate limit")` with the request's id,
otherwise it delegates to the inner service and returns its response
verbatim. -/
def dummyRateLimitCall (service : Request → MethodResponse) (st : MwState)
    (req : Request) : CallResult :=
  if st.count > 10 then
    { response := MethodResponse.error req.id (-32000) "RPC rate limit"
      state := { count := st.count + 1, chan := (trySend st.chan).1 }
      innerInvoked := false
      sendAttempted := true
      sendSucceeded := (trySend st.chan).2 }
  else
    { response := service req
      state := { count := st.count + 1, chan := st.chan }
      innerInvoked := true
      sendAttempted := false
      sendSucceeded := false }

/-- Run the middleware over a sequence of requests arriving on one
connection, threading its state; yields the per-request results in
order. -/
def runCalls (service : Request → MethodResponse) (st : MwState) :
    List Request → List CallResult
  | [] => []
  | req :: reqs =>
    let r := dummyRateLimitCall service st req
    r :: runCalls service r.state reqs

/-- Number of attempted ban-signal sends over a run. -/
def sendAttemptCount (rs : List CallResult) : Nat :=
  (rs.filter (fun r => r.sendAttempted)).length

/-- Number of successful ban-signal sends over a run. -/
def sendSuccessCount (rs : List CallResult) : Nat :=
  (rs.filter (fun r => r.sendSucceeded)).length

/-- A fresh connection's middleware state: counter 0
(`AtomicUsize::new(0)`), ban channel empty. -/
def freshMwState : MwState :=
  { count := 0, chan := ChanState.empty }

/-- Eleven `say_hello` requests, all with id 1. -/
def elevenRequests : List Request :=
  List.replicate 11 { id := 1, method := "say_hello" }

/-- Twelve `say_hello` requests, all with id 1. -/
def twelveRequests : List Request :=
  List.replicate 12 { id := 1, method := "say_hello" }

/-- Thirteen `say_hello` requests, all with id 1. -/
def thirteenRequests : List Request :=
  List.replicate 13 { id := 1, method := "say_hello" }

/-- An event touching one connection's ban channel: either a request
processed by the middleware, or the supervisor's `disconnect.recv()`
firing.  When the supervisor receives the buffered value, the
`tokio::select!` arm runs, the spawned task ends and the receiver is
dropped, so a receive atomically consumes the value and closes the
channel; a receive on an empty or closed channel changes nothing. -/
inductive ConnEvent where
  | request (req : Request)
  | supervisorRecv
deriving DecidableEq

/-- One step of the per-connection middleware/supervisor interaction:
the new middleware state, and whether a ban-signal send succeeded. -/
def stepConn (service : Request → MethodResponse) (st : MwState) :
    ConnEvent → MwState × Bool
  | ConnEvent.request req =>
    let r := dummyRateLimitCall service st req
    (r.state, r.sendSucceeded)
  | ConnEvent.supervisorRecv =>
    match st.chan with
    | ChanState.full => ({ st with chan := ChanState.closed }, false)
    | _ => (st, false)

/-- Total number of successful ban-signal sends over a sequence of
connection events. -/
def successesFrom (service : Request → MethodResponse) (st : MwState) :
    List ConnEvent → Nat
  | [] => 0
  | e :: es =>
    let s := stepConn service st e
    (if s.2 then 1 else 0) + successesFrom service s.1 es

/-- Which branch of the supervisor's `tokio::select!` (lines 182-187)
resolves first: the serving future `conn_fut`, or `disconnect.recv()`. -/
inductive SelectWinner where
  | connFut
  | banSignal
deriving DecidableEq

/-- `HashSet::insert` on the blacklist, modelled on lists of peer IPs:
inserting a present element is a no-op. -/
def insertIP (p : Nat) (bl : List Nat) : List Nat :=
  if p ∈ bl then bl else bl ++ [p]

/-- Outcome of running one connection's supervisor task to completion:
the blacklist afterwards, how many `insert` calls were made, and
whether the serving future was dropped before completing. -/
structure SuperviseResult where
  blacklist : List Nat
  inserts : Nat
  servingDropped : Bool
deriving DecidableEq

/-- The per-connection supervisor (lines 181-188): `tokio::select!`
races `conn_fut` against `disconnect.recv()`.  If the serving future
completes first nothing happens; if the ban signal resolves first the
serving future is dropped and the peer's IP is inserted into the
blacklist, exactly once. -/
def supervise (w : SelectWinner) (bl : List Nat) (peer : Nat) : SuperviseResult :=
  match w with
  | SelectWinner.connFut => { blacklist := bl, inserts := 0, servingDropped := false }
  | SelectWinner.banSignal =>
    { blacklist := insertIP peer bl, inserts := 1, servingDropped := true }

/-- The `disconnect.recv()` branch can only resolve if some middleware
`try_send` succeeded on that connection; otherwise `conn_fut` wins the
select. -/
def validWinner (rs : List CallResult) (w : SelectWinner) : Prop :=
  w = SelectWinner.connFut ∨ 1 ≤ sendSuccessCount rs

/-- An HTTP-level response at the pre-upgrade gate:
`http::response::too_many_requests()`, `http::response::denied()`, or a
response produced by `run_websocket` (the upgrade response on success,
an error response on failure), tracked opaquely by a tag. -/
inductive HttpResponse where
  | tooManyRequests
  | denied
  | fromWebsocket (tag : Nat)
deriving DecidableEq, Inhabited

/-- Result of `run_websocket(req, svc, rpc_service)`: either
`Ok((rp, conn_fut))` with the upgrade response and a serving future, or
`Err(rp)` with an error response. -/
inductive UpgradeOutcome where
  | ok (rp : HttpResponse)
  | err (rp : HttpResponse)
deriving DecidableEq

/-- Shared server state: the configured connection ceiling, the ids of
connections currently holding an `AdmissionPermit`, the blacklisted
peer IPs, and the next connection id.

Modelled from the spec: `ConnectionGuard` itself lives in the jsonrpsee
crate, not under `src/`; per spec 4.1 `try_acquire` succeeds while the
active permit count is below `max_connections`, with no side effect on
failure, and a permit is released exactly once when its connection
ends.  Permits are modelled as the ids in `live`. -/
structure ServerState where
  maxConns : Nat
  live : List Nat
  blacklist : List Nat
  nextId : Nat
deriving DecidableEq

/-- Observable result of the dispatcher handling one inbound request
event (the body of the `service_fn` closure, lines 143-199): the HTTP
response, the server state afterwards, whether a live connection was
admitted, whether a permit was acquired, whether that permit was
released already during dispatch, and whether a supervisor task was
spawned. -/
structure DispatchResult where
  response : HttpResponse
  state : ServerState
  admitted : Bool
  permitAcquired : Bool
  permitReleasedNow : Bool
  supervisorSpawned : Bool
deriving DecidableEq

/-- The dispatcher (lines 143-199).  In order: `conn_guard.try_acquire`
fails when the active permits have reached `max_connections`, answering
too-many-requests with no state change; then the blacklist check
answers denied (the permit just acquired is dropped, hence released);
then, for an upgrade request with websockets enabled, `run_websocket`
either yields a serving connection (the permit moves into the
connection, a supervisor is spawned) or an error response (the permit
is dropped); a non-upgrade request is answered denied. -/
def dispatchEvent (st : ServerState) (peer : Nat) (isUpgradeReq wsEnabled : Bool)
    (upgrade : UpgradeOutcome) : DispatchResult :=
  if st.maxConns ≤ st.live.length then
    { response := HttpResponse.tooManyRequests, state := st, admitted := false,
      permitAcquired := false, permitReleasedNow := false, supervisorSpawned := false }
  else if peer ∈ st.blacklist then
    { response := HttpResponse.denied, state := st, admitted := false,
      permitAcquired := true, permitReleasedNow := true, supervisorSpawned := false }
  else if isUpgradeReq && wsEnabled then
    match upgrade with
    | UpgradeOutcome.ok rp =>
      { response := rp,
        state := { st with live := st.live ++ [st.nextId], nextId := st.nextId + 1 },
        admitted := true, permitAcquired := true, permitReleasedNow := false,
        supervisorSpawned := true }
    | UpgradeOutcome.err rp =>
      { response := rp, state := st, admitted := false,
        permitAcquired := true, permitReleasedNow := true, supervisorSpawned := false }
  else
    { response := HttpResponse.denied, state := st, admitted := false,
      permitAcquired := true, permitReleasedNow := true, supervisorSpawned := false }

/-- A server-level event: an inbound request event handled by the
dispatcher, a connection ending normally (its supervisor's `conn_fut`
branch; the permit is released), or a connection being banned (the
supervisor's `disconnect.recv()` branch: the serving future is
dropped, releasing the permit, and the peer IP is inserted). -/
inductive ServerEvent where
  | request (peer : Nat) (isUpgradeReq wsEnabled : Bool) (upgrade : UpgradeOutcome)
  | connClosed (cid : Nat)
  | connBanned (cid : Nat) (peer : Nat)
deriving DecidableEq

/-- One transition of the shared server state. -/
def stepServer (st : ServerState) : ServerEvent → ServerState
  | ServerEvent.request peer isUp ws upg => (dispatchEvent st peer isUp ws upg).state
  | ServerEvent.connClosed cid => { st with live := st.live.erase cid }
  | ServerEvent.connBanned cid peer =>
    { st with live := st.live.erase cid, blacklist := insertIP peer st.blacklist }

/-- Run the server over a sequence of events. -/
def runServer (st : ServerState) : List ServerEvent → ServerState
  | [] => st
  | e :: es => runServer (stepServer st e) es

/-- The server's initial state: no live connections, empty blacklist
(`HashSet::new()`), connection ids from 0 (`AtomicU32::new(0)`). -/
def initServer (maxConns : Nat) : ServerState :=
  { maxConns := maxConns, live := [], blacklist := [], nextId := 0 }

/-- Invariant carried by every reachable server state: the ceiling is
the configured one, permit ids are distinct and below the id counter,
and the active permits never exceed the ceiling. -/
def ServerInv (m : Nat) (st : ServerState) : Prop :=
  st.maxConns = m ∧ st.live.Nodup ∧ (∀ i ∈ st.live, i < st.nextId) ∧ st.live.length ≤ m

/-- Ten `say_hello` requests, all with id 1. -/
def tenRequests : List Request :=
  List.replicate 10 { id := 1, method := "say_hello" }

/-- A sample server history: peer 7 connects and gets banned, then
peer 5 connects and stays live. -/
def demoEvents : List ServerEvent :=
  [ServerEvent.request 7 true true (UpgradeOutcome.ok (HttpResponse.fromWebsocket 0)),
   ServerEvent.connBanned 0 7,
   ServerEvent.request 5 true true (UpgradeOutcome.ok (HttpResponse.fromWebsocket 1))]

/- Helper lemmas about the middleware. -/

/-- Field-level description of one middleware call: the counter always
advances by one; over the threshold the inner service is skipped, the
rate-limit error is returned and a send is attempted; at or below it
the inner response is returned verbatim and the channel is untouched. -/
theorem dummyRateLimitCall_spec (s : Request → MethodResponse) (st : MwState)
    (req : Request) :
    (dummyRateLimitCall s st req).state.count = st.count + 1
    ∧ (10 < st.count →
        (dummyRateLimitCall s st req).innerInvoked = false
        ∧ (dummyRateLimitCall s st req).response
            = MethodResponse.error req.id (-32000) "RPC rate limit"
        ∧ (dummyRateLimitCall s st req).sendAttempted = true)
    ∧ (st.count ≤ 10 →
        (dummyRateLimitCall s st req).innerInvoked = true
        ∧ (dummyRateLimitCall s st req).response = s req
        ∧ (dummyRateLimitCall s st req).sendAttempted = false
        ∧ (dummyRateLimitCall s st req).sendSucceeded = false
        ∧ (dummyRateLimitCall s st req).state.chan = st.chan) := by
  by_cases h : 10 < st.count <;> simp [dummyRateLimitCall, h]

/-- Counting sends of a cons cell. -/
theorem sendAttemptCount_cons (r : CallResult) (rs : List CallResult) :
    sendAttemptCount (r :: rs)
      = (if r.sendAttempted then 1 else 0) + sendAttemptCount rs := by
  simp only [sendAttemptCount, List.filter_cons]
  split <;> simp [Nat.add_comm]

/-- Counting successful sends of a cons cell. -/
theorem sendSuccessCount_cons (r : CallResult) (rs : List CallResult) :
    sendSuccessCount (r :: rs)
      = (if r.sendSucceeded then 1 else 0) + sendSuccessCount rs := by
  simp only [sendSuccessCount, List.filter_cons]
  split <;> simp [Nat.add_comm]

/-- Closed form for the number of attempted ban-signal sends: one per
request whose pre-increment counter value exceeds 10. -/
theorem sendAttemptCount_runCalls (s : Request → MethodResponse) (st : MwState)
    (reqs : List Request) :
    sendAttemptCount (runCalls s st reqs) = reqs.length - (11 - st.count) := by
  induction reqs generalizing st with
  | nil => simp [runCalls, sendAttemptCount]
  | cons r rs ih =>
    have hspec := dummyRateLimitCall_spec s st r
    have ihr := ih (dummyRateLimitCall s st r).state
    rw [hspec.1] at ihr
    by_cases h : 10 < st.count
    · have ha := (hspec.2.1 h).2.2
      simp [runCalls, sendAttemptCount_cons, ha, List.length_cons]
      omega
    · have ha := (hspec.2.2 (by omega)).2.2.1
      simp [runCalls, sendAttemptCount_cons, ha, List.length_cons]
      omega

/-- A send only succeeds when it was attempted. -/
theorem sendSuccessCount_le_attemptCount (s : Request → MethodResponse)
    (st : MwState) (reqs : List Request) :
    sendSuccessCount (runCalls s st reqs) ≤ sendAttemptCount (runCalls s st reqs) := by
  induction reqs generalizing st with
  | nil => simp [runCalls, sendSuccessCount, sendAttemptCount]
  | cons r rs ih =>
    have hspec := dummyRateLimitCall_spec s st r
    have ihr := ih (dummyRateLimitCall s st r).state
    by_cases h : 10 < st.count
    · have ha := (hspec.2.1 h).2.2
      simp [runCalls, sendAttemptCount_cons, sendSuccessCount_cons, ha]
      split <;> omega
    · have ha := (hspec.2.2 (by omega)).2.2.1
      have hs := (hspec.2.2 (by omega)).2.2.2.1
      simp [runCalls, sendAttemptCount_cons, sendSuccessCount_cons, ha, hs]
      simpa using ihr

/-- Per-index description of a middleware run: the result of the k-th
request has counter value `st.count + k + 1`, is the rate-limit error
when the pre-increment counter `st.count + k` exceeds 10, and is the
inner service's response otherwise. -/
theorem runCalls_getD_spec (s : Request → MethodResponse) (st : MwState)
    (reqs : List Request) (k : Nat) (hk : k < reqs.length) :
    ((runCalls s st reqs).getD k default).state.count = st.count + k + 1
    ∧ (10 < st.count + k →
        ((runCalls s st reqs).getD k default).innerInvoked = false
        ∧ ((runCalls s st reqs).getD k default).response
            = MethodResponse.error (reqs.getD k default).id (-32000) "RPC rate limit")
    ∧ (st.count + k ≤ 10 →
        ((runCalls s st reqs).getD k default).innerInvoked = true
        ∧ ((runCalls s st reqs).getD k default).response = s (reqs.getD k default)) := by
  induction reqs generalizing st k with
  | nil => simp at hk
  | cons r rs ih =>
    cases k with
    | zero =>
      simp only [runCalls, List.getD_cons_zero]
      have hspec := dummyRateLimitCall_spec s st r
      refine ⟨by have := hspec.1; omega, ?_, ?_⟩
      · intro hov
        have h10 : 10 < st.count := by omega
        exact ⟨(hspec.2.1 h10).1, (hspec.2.1 h10).2.1⟩
      · intro hun
        have h10 : st.count ≤ 10 := by omega
        exact ⟨(hspec.2.2 h10).1, (hspec.2.2 h10).2.1⟩
    | succ k =>
      simp only [runCalls, List.getD_cons_succ]
      have hk' : k < rs.length := by
        simp only [List.length_cons] at hk
        omega
      have ihr := ih (dummyRateLimitCall s st r).state k hk'
      rw [(dummyRateLimitCall_spec s st r).1] at ihr
      have e1 : st.count + 1 + k = st.count + (k + 1) := by omega
      rw [e1] at ihr
      exact ihr

/- Claim theorems for the middleware. -/

/-- C1 counterexample: with the threshold fixed at 10, the eleventh
`say_hello` request on a fresh connection is still answered with the
success payload `"lo"`, not with the error `(-32000, "RPC rate limit")`
the claim predicts: `count.fetch_add(1)` returns the pre-increment
value, so the guard `count > 10` first holds on the twelfth request. -/
theorem c1_counterexample :
    ((runCalls sayHelloService freshMwState elevenRequests).getD 10 default).response
      = MethodResponse.success 1 "lo"
    ∧ ¬ (((runCalls sayHelloService freshMwState elevenRequests).getD 10 default).response
      = MethodResponse.error 1 (-32000) "RPC rate limit") := by
  decide

/-- C1 (amended): for a single fresh connection issuing successive
`say_hello` requests, each of the first ELEVEN requests is answered
with `"lo"`, and the TWELFTH request is answered with the error
`(-32000, "RPC rate limit")`. -/
theorem c1_rate_limit_boundary :
    (runCalls sayHelloService freshMwState twelveRequests).map CallResult.response
      = List.replicate 11 (MethodResponse.success 1 "lo")
        ++ [MethodResponse.error 1 (-32000) "RPC rate limit"] := by
  decide

/-- C2: every inbound request increments the connection's counter by
one; when the fetched counter value exceeds the threshold 10 the
middleware answers the error `(-32000, "RPC rate limit")` — a negative
code — without invoking the inner handler, and otherwise it invokes the
inner handler and returns its response unchanged. -/
theorem c2_middleware_gate (service : Request → MethodResponse) (st : MwState)
    (req : Request) :
    (dummyRateLimitCall service st req).state.count = st.count + 1
    ∧ (10 < st.count →
        (dummyRateLimitCall service st req).response
          = MethodResponse.error req.id (-32000) "RPC rate limit"
        ∧ (-32000 : Int) < 0
        ∧ (dummyRateLimitCall service st req).innerInvoked = false)
    ∧ (st.count ≤ 10 →
        (dummyRateLimitCall service st req).innerInvoked = true
        ∧ (dummyRateLimitCall service st req).response = service req) := by
  have hspec := dummyRateLimitCall_spec service st req
  refine ⟨hspec.1, ?_, ?_⟩
  · intro h
    exact ⟨(hspec.2.1 h).2.1, by omega, (hspec.2.1 h).1⟩
  · intro h
    exact ⟨(hspec.2.2 h).1, (hspec.2.2 h).2.1⟩

/-- Witness for C2 at concrete inputs: a call with fetched counter 11
is rejected with the rate-limit error, and a call on a fresh connection
reaches the inner handler. -/
theorem c2_middleware_gate_witness :
    (dummyRateLimitCall sayHelloService { count := 11, chan := ChanState.empty }
        { id := 1, method := "say_hello" }).response
      = MethodResponse.error 1 (-32000) "RPC rate limit"
    ∧ (dummyRateLimitCall sayHelloService freshMwState
        { id := 1, method := "say_hello" }).innerInvoked = true :=
  ⟨((c2_middleware_gate sayHelloService { count := 11, chan := ChanState.empty }
      { id := 1, method := "say_hello" }).2.1 (by decide)).1,
   ((c2_middleware_gate sayHelloService freshMwState
      { id := 1, method := "say_hello" }).2.2 (by decide)).1⟩

/-- Bound on successful ban-signal sends: success requires an empty
channel, becoming full consumes the only opportunity, and neither a
failed send nor the supervisor's receive ever re-empties the channel. -/
theorem successesFrom_le (s : Request → MethodResponse) (st : MwState)
    (evs : List ConnEvent) :
    successesFrom s st evs ≤ if st.chan = ChanState.empty then 1 else 0 := by
  induction evs generalizing st with
  | nil => simp [successesFrom]
  | cons e es ih =>
    cases e with
    | request req =>
      by_cases h : 10 < st.count
      · cases hc : st.chan with
        | empty =>
          have hnext := ih { count := st.count + 1, chan := ChanState.full }
          simp [successesFrom, stepConn, dummyRateLimitCall, h, hc, trySend] at hnext ⊢
          omega
        | full =>
          have hnext := ih { count := st.count + 1, chan := ChanState.full }
          simp [successesFrom, stepConn, dummyRateLimitCall, h, hc, trySend] at hnext ⊢
          omega
        | closed =>
          have hnext := ih { count := st.count + 1, chan := ChanState.closed }
          simp [successesFrom, stepConn, dummyRateLimitCall, h, hc, trySend] at hnext ⊢
          omega
      · have hnext := ih { count := st.count + 1, chan := st.chan }
        cases hc : st.chan <;>
          simp [successesFrom, stepConn, dummyRateLimitCall, h, hc] at hnext ⊢ <;>
          omega
    | supervisorRecv =>
      cases hc : st.chan with
      | empty =>
        have hnext := ih st
        simp [successesFrom, stepConn, hc] at hnext ⊢
        exact hnext
      | full =>
        have hnext := ih { st with chan := ChanState.closed }
        simp [successesFrom, stepConn, hc] at hnext ⊢
        omega
      | closed =>
        have hnext := ih st
        simp [successesFrom, stepConn, hc] at hnext ⊢
        exact hnext

/-- C3 counterexample: a connection serving thirteen requests makes the
middleware attempt a ban-signal send twice (on the twelfth and the
thirteenth request), refuting the claim that at most one send is
attempted per connection. -/
theorem c3_counterexample :
    ¬ (sendAttemptCount (runCalls sayHelloService freshMwState thirteenRequests) ≤ 1) := by
  decide

/-- C3 (amended): the middleware attempts a ban-signal send on every
request whose fetched counter value exceeds 10 — one attempt per
over-threshold request, so several attempts can occur on one
connection — but at most one attempted send per connection ever
succeeds: the channel has capacity one, and a receive by the supervisor
consumes the buffered value and closes the channel. -/
theorem c3_ban_signal_sends (service : Request → MethodResponse)
    (reqs : List Request) (evs : List ConnEvent) :
    sendAttemptCount (runCalls service freshMwState reqs) = reqs.length - 11
    ∧ successesFrom service freshMwState evs ≤ 1 := by
  constructor
  · have h := sendAttemptCount_runCalls service freshMwState reqs
    simpa [freshMwState] using h
  · have h := successesFrom_le service freshMwState evs
    simpa [freshMwState] using h

/-- C4: a connection that issues exactly ten (the configured threshold)
requests and then disconnects voluntarily never even attempts a
ban-signal send, so the serving future is the only select branch that
can resolve and the supervisor leaves the blacklist untouched. -/
theorem c4_threshold_then_disconnect (service : Request → MethodResponse)
    (reqs : List Request) (bl : List Nat) (peer : Nat) (w : SelectWinner)
    (hlen : reqs.length = 10)
    (hw : validWinner (runCalls service freshMwState reqs) w) :
    sendAttemptCount (runCalls service freshMwState reqs) = 0
    ∧ w = SelectWinner.connFut
    ∧ (supervise w bl peer).blacklist = bl
    ∧ (supervise w bl peer).inserts = 0 := by
  have ha : sendAttemptCount (runCalls service freshMwState reqs) = 0 := by
    have h := sendAttemptCount_runCalls service freshMwState reqs
    simp [freshMwState, hlen] at h
    exact h
  have hs : sendSuccessCount (runCalls service freshMwState reqs) = 0 := by
    have h := sendSuccessCount_le_attemptCount service freshMwState reqs
    omega
  have hwc : w = SelectWinner.connFut := by
    rcases hw with h | h
    · exact h
    · rw [hs] at h
      omega
  subst hwc
  exact ⟨ha, rfl, rfl, rfl⟩

/-- Witness for C4: ten concrete `say_hello` requests followed by a
normal disconnect leave an empty blacklist. -/
theorem c4_witness :
    sendAttemptCount (runCalls sayHelloService freshMwState tenRequests) = 0
    ∧ SelectWinner.connFut = SelectWinner.connFut
    ∧ (supervise SelectWinner.connFut [] 3).blacklist = []
    ∧ (supervise SelectWinner.connFut [] 3).inserts = 0 :=
  c4_threshold_then_disconnect sayHelloService tenRequests [] 3 SelectWinner.connFut
    (by decide) (Or.inl rfl)

/-- C5: the supervisor inserts the peer into the blacklist if and only
if the ban signal wins the select; when the serving future completes
first nothing is mutated and the future is not dropped, and when the
ban signal resolves first the serving future is dropped and exactly one
insert of the peer is performed. -/
theorem c5_supervisor_race (w : SelectWinner) (bl : List Nat) (peer : Nat) :
    (w = SelectWinner.connFut →
        supervise w bl peer = { blacklist := bl, inserts := 0, servingDropped := false })
    ∧ (w = SelectWinner.banSignal →
        supervise w bl peer
          = { blacklist := insertIP peer bl, inserts := 1, servingDropped := true })
    ∧ ((supervise w bl peer).inserts = 1 ↔ w = SelectWinner.banSignal)
    ∧ ((supervise w bl peer).servingDropped = true ↔ w = SelectWinner.banSignal) := by
  cases w <;> simp [supervise]

/-- Witness for C5: both select outcomes at concrete inputs. -/
theorem c5_witness :
    supervise SelectWinner.banSignal [] 7
      = { blacklist := insertIP 7 [], inserts := 1, servingDropped := true }
    ∧ supervise SelectWinner.connFut [] 7
      = { blacklist := [], inserts := 0, servingDropped := false } :=
  ⟨(c5_supervisor_race SelectWinner.banSignal [] 7).2.1 rfl,
   (c5_supervisor_race SelectWinner.connFut [] 7).1 rfl⟩

/-- C9: the over-threshold state of a connection is absorbing — if the
i-th request was answered by the middleware without reaching the inner
handler, then every later request j on the same connection is also
answered with the rate-limit error without reaching the inner handler,
and the counter keeps growing (its value after request j is the start
value plus j + 1; it is never reset or decremented). -/
theorem c9_rate_limit_absorbing (service : Request → MethodResponse) (st : MwState)
    (reqs : List Request) (i j : Nat) (hij : i ≤ j) (hj : j < reqs.length)
    (hi : ((runCalls service st reqs).getD i default).innerInvoked = false) :
    ((runCalls service st reqs).getD j default).innerInvoked = false
    ∧ ((runCalls service st reqs).getD j default).response
        = MethodResponse.error ((reqs.getD j default).id) (-32000) "RPC rate limit"
    ∧ ((runCalls service st reqs).getD j default).state.count = st.count + j + 1 := by
  have hi' : i < reqs.length := lt_of_le_of_lt hij hj
  have Hi := runCalls_getD_spec service st reqs i hi'
  have Hj := runCalls_getD_spec service st reqs j hj
  by_cases h : 10 < st.count + i
  · have hjo : 10 < st.count + j := by omega
    exact ⟨(Hj.2.1 hjo).1, (Hj.2.1 hjo).2, Hj.1⟩
  · have := (Hi.2.2 (by omega)).1
    rw [this] at hi
    simp at hi

/-- Witness for C9: on a thirteen-request connection the twelfth result
(index 11) skipped the inner handler, hence so does the thirteenth
(index 12), which carries the rate-limit error and counter value 13. -/
theorem c9_witness :
    ((runCalls sayHelloService freshMwState thirteenRequests).getD 12 default).innerInvoked = false
    ∧ ((runCalls sayHelloService freshMwState thirteenRequests).getD 12 default).response
        = MethodResponse.error ((thirteenRequests.getD 12 default).id) (-32000) "RPC rate limit"
    ∧ ((runCalls sayHelloService freshMwState thirteenRequests).getD 12 default).state.count
        = freshMwState.count + 12 + 1 :=
  c9_rate_limit_absorbing sayHelloService freshMwState thirteenRequests 11 12
    (by decide) (by decide) (by decide)

/- Helper lemmas about the dispatcher and the shared server state. -/

/-- The dispatcher either leaves the server state unchanged, or — only
below capacity — admits a fresh connection id. -/
theorem dispatchEvent_state_cases (st : ServerState) (peer : Nat)
    (isUp ws : Bool) (upg : UpgradeOutcome) :
    (dispatchEvent st peer isUp ws upg).state = st
    ∨ (st.live.length < st.maxConns
        ∧ (dispatchEvent st peer isUp ws upg).state
            = { st with live := st.live ++ [st.nextId], nextId := st.nextId + 1 }) := by
  by_cases h1 : st.maxConns ≤ st.live.length
  · left
    simp [dispatchEvent, h1]
  · by_cases h2 : peer ∈ st.blacklist
    · left
      simp [dispatchEvent, h1, h2]
    · by_cases h3 : (isUp && ws) = true
      · cases upg with
        | ok rp =>
          right
          exact ⟨by omega, by simp [dispatchEvent, h1, h2, h3]⟩
        | err rp =>
          left
          simp [dispatchEvent, h1, h2, h3]
      · left
        simp [dispatchEvent, h1, h2, h3]

/-- The dispatcher never mutates the blacklist. -/
theorem dispatchEvent_blacklist (st : ServerState) (peer : Nat)
    (isUp ws : Bool) (upg : UpgradeOutcome) :
    (dispatchEvent st peer isUp ws upg).state.blacklist = st.blacklist := by
  rcases dispatchEvent_state_cases st peer isUp ws upg with h | ⟨-, h⟩ <;> rw [h]

/-- The initial server state satisfies the invariant. -/
theorem initServer_inv (m : Nat) : ServerInv m (initServer m) := by
  refine ⟨rfl, List.nodup_nil, ?_, ?_⟩ <;> simp [initServer]

/-- Every server step preserves the invariant. -/
theorem stepServer_inv (m : Nat) (st : ServerState) (e : ServerEvent)
    (h : ServerInv m st) : ServerInv m (stepServer st e) := by
  obtain ⟨hm, hnd, hlt, hle⟩ := h
  cases e with
  | request peer isUp ws upg =>
    show ServerInv m (dispatchEvent st peer isUp ws upg).state
    rcases dispatchEvent_state_cases st peer isUp ws upg with heq | ⟨hcap, heq⟩
    · rw [heq]
      exact ⟨hm, hnd, hlt, hle⟩
    · rw [heq]
      refine ⟨hm, ?_, ?_, ?_⟩
      · show (st.live ++ [st.nextId]).Nodup
        rw [List.nodup_append]
        refine ⟨hnd, List.nodup_singleton _, ?_⟩
        intro x hx hx1
        rw [List.mem_singleton] at hx1
        have := hlt x hx
        omega
      · show ∀ i ∈ st.live ++ [st.nextId], i < st.nextId + 1
        intro i hi
        rcases List.mem_append.1 hi with hi | hi
        · exact Nat.lt_succ_of_lt (hlt i hi)
        · rw [List.mem_singleton] at hi
          omega
      · show (st.live ++ [st.nextId]).length ≤ m
        rw [List.length_append]
        simp only [List.length_singleton]
        omega
  | connClosed cid =>
    exact ⟨hm, hnd.erase cid,
      fun i hi => hlt i (List.mem_of_mem_erase hi),
      le_trans (List.erase_sublist cid st.live).length_le hle⟩
  | connBanned cid peer =>
    exact ⟨hm, hnd.erase cid,
      fun i hi => hlt i (List.mem_of_mem_erase hi),
      le_trans (List.erase_sublist cid st.live).length_le hle⟩

/-- The invariant holds along any event sequence. -/
theorem runServer_inv (m : Nat) (st : ServerState) (evs : List ServerEvent)
    (h : ServerInv m st) : ServerInv m (runServer st evs) := by
  induction evs generalizing st with
  | nil => exact h
  | cons e es ih => exact ih _ (stepServer_inv m st e h)

/-- Inserting a peer twice is the same as inserting it once. -/
theorem insertIP_idem (p : Nat) (bl : List Nat) :
    insertIP p (insertIP p bl) = insertIP p bl := by
  by_cases h : p ∈ bl <;> simp [insertIP, h]

/-- The blacklist grows under insertion. -/
theorem subset_insertIP (p : Nat) (bl : List Nat) : bl ⊆ insertIP p bl := by
  unfold insertIP
  split
  · exact fun a ha => ha
  · exact List.subset_append_left _ _

/-- No server step removes a peer from the blacklist. -/
theorem blacklist_mono_step (st : ServerState) (e : ServerEvent) :
    st.blacklist ⊆ (stepServer st e).blacklist := by
  cases e with
  | request peer isUp ws upg =>
    show st.blacklist ⊆ (dispatchEvent st peer isUp ws upg).state.blacklist
    rw [dispatchEvent_blacklist]
    exact fun a ha => ha
  | connClosed cid => exact fun a ha => ha
  | connBanned cid peer => exact subset_insertIP peer st.blacklist

/-- No event sequence removes a peer from the blacklist. -/
theorem blacklist_mono_run (st : ServerState) (evs : List ServerEvent) :
    st.blacklist ⊆ (runServer st evs).blacklist := by
  induction evs generalizing st with
  | nil => exact fun a ha => ha
  | cons e es ih => exact List.Subset.trans (blacklist_mono_step st e) (ih _)

/- Claim theorems for the dispatcher and supervisor state. -/

/-- C6 counterexample: with `max_connections = 1`, after peer 7 has
been banned and peer 5 occupies the only permit, a connection attempt
from the blacklisted peer 7 is answered with the too-many-requests
status — the `try_acquire` check precedes the blacklist check — and not
with the denied status the claim promises for every attempt. -/
theorem c6_counterexample :
    7 ∈ (runServer (initServer 1) demoEvents).blacklist
    ∧ (dispatchEvent (runServer (initServer 1) demoEvents) 7 true true
          (UpgradeOutcome.ok (HttpResponse.fromWebsocket 2))).response
        = HttpResponse.tooManyRequests
    ∧ ¬ ((dispatchEvent (runServer (initServer 1) demoEvents) 7 true true
          (UpgradeOutcome.ok (HttpResponse.fromWebsocket 2))).response
        = HttpResponse.denied) := by
  decide

/-- C6 (amended): the blacklist only grows — insert is idempotent and
no operation removes a peer — and once a peer is inserted every
subsequent connection attempt from that peer is rejected without being
admitted: with the denied status whenever a permit is available, and
with the too-many-requests status when the guard is at capacity. -/
theorem c6_blacklist_monotone (st : ServerState) (evs : List ServerEvent)
    (peer p : Nat) (isUp ws : Bool) (upg : UpgradeOutcome)
    (hpeer : peer ∈ st.blacklist) :
    insertIP p (insertIP p st.blacklist) = insertIP p st.blacklist
    ∧ st.blacklist ⊆ (runServer st evs).blacklist
    ∧ (dispatchEvent st peer isUp ws upg).admitted = false
    ∧ (dispatchEvent st peer isUp ws upg).supervisorSpawned = false
    ∧ (st.live.length < st.maxConns →
        (dispatchEvent st peer isUp ws upg).response = HttpResponse.denied) := by
  refine ⟨insertIP_idem p st.blacklist, blacklist_mono_run st evs, ?_, ?_, ?_⟩
  · by_cases h1 : st.maxConns ≤ st.live.length <;> simp [dispatchEvent, h1, hpeer]
  · by_cases h1 : st.maxConns ≤ st.live.length <;> simp [dispatchEvent, h1, hpeer]
  · intro hcap
    have h1 : ¬ st.maxConns ≤ st.live.length := by omega
    simp [dispatchEvent, h1, hpeer]

/-- Witness for C6 (amended) at a concrete state: the blacklisted
peer 7 is answered denied when a permit is available, and inserting
peer 9 twice equals inserting it once. -/
theorem c6_witness :
    (dispatchEvent { maxConns := 2, live := [0], blacklist := [7], nextId := 1 } 7 true true
        (UpgradeOutcome.ok (HttpResponse.fromWebsocket 0))).response = HttpResponse.denied
    ∧ insertIP 9 (insertIP 9 [7]) = insertIP 9 [7] :=
  ⟨(c6_blacklist_monotone { maxConns := 2, live := [0], blacklist := [7], nextId := 1 } []
      7 9 true true (UpgradeOutcome.ok (HttpResponse.fromWebsocket 0))
      (by decide)).2.2.2.2 (by decide),
   (c6_blacklist_monotone { maxConns := 2, live := [0], blacklist := [7], nextId := 1 } []
      7 9 true true (UpgradeOutcome.ok (HttpResponse.fromWebsocket 0))
      (by decide)).1⟩

/-- C7: along any sequence of admissions and closes from the initial
state the number of outstanding permits never exceeds
`max_connections` (it is a natural number, hence never negative);
releasing a live connection's permit removes exactly that permit, and a
second release of the same permit is structurally a no-op; and a
request from a blacklisted peer that got past `try_acquire` releases
the permit it acquired during dispatch, leaving the state unchanged. -/
theorem c7_permit_accounting (m : Nat) (evs : List ServerEvent) (cid peer : Nat)
    (isUp ws : Bool) (upg : UpgradeOutcome)
    (hcid : cid ∈ (runServer (initServer m) evs).live)
    (hpeer : peer ∈ (runServer (initServer m) evs).blacklist) :
    (runServer (initServer m) evs).live.length ≤ m
    ∧ (stepServer (runServer (initServer m) evs) (ServerEvent.connClosed cid)).live.length + 1
        = (runServer (initServer m) evs).live.length
    ∧ cid ∉ (stepServer (runServer (initServer m) evs) (ServerEvent.connClosed cid)).live
    ∧ stepServer (stepServer (runServer (initServer m) evs) (ServerEvent.connClosed cid))
          (ServerEvent.connClosed cid)
        = stepServer (runServer (initServer m) evs) (ServerEvent.connClosed cid)
    ∧ ((runServer (initServer m) evs).live.length < m →
        (dispatchEvent (runServer (initServer m) evs) peer isUp ws upg).permitAcquired = true
        ∧ (dispatchEvent (runServer (initServer m) evs) peer isUp ws upg).permitReleasedNow
            = true
        ∧ (dispatchEvent (runServer (initServer m) evs) peer isUp ws upg).state
            = runServer (initServer m) evs) := by
  obtain ⟨hm, hnd, hlt, hle⟩ := runServer_inv m (initServer m) evs (initServer_inv m)
  have hnotmem : cid ∉ (runServer (initServer m) evs).live.erase cid :=
    hnd.not_mem_erase
  refine ⟨hle, ?_, hnotmem, ?_, ?_⟩
  · exact List.length_erase_add_one hcid
  · show ({ runServer (initServer m) evs with
        live := ((runServer (initServer m) evs).live.erase cid).erase cid } : ServerState)
      = { runServer (initServer m) evs with
        live := (runServer (initServer m) evs).live.erase cid }
    rw [List.erase_of_not_mem hnotmem]
  · intro hcap
    have h1 : ¬ (runServer (initServer m) evs).maxConns
        ≤ (runServer (initServer m) evs).live.length := by omega
    refine ⟨?_, ?_, ?_⟩ <;> simp [dispatchEvent, h1, hpeer]

/-- Witness for C7 on a concrete history with ceiling 2: peer 7 banned,
peer 5 live holding permit 1. -/
theorem c7_witness :
    (stepServer (runServer (initServer 2) demoEvents) (ServerEvent.connClosed 1)).live.length + 1
      = (runServer (initServer 2) demoEvents).live.length :=
  (c7_permit_accounting 2 demoEvents 1 7 true true
      (UpgradeOutcome.ok (HttpResponse.fromWebsocket 2)) (by decide) (by decide)).2.1

/-- C8: when the guard is at capacity, the dispatcher answers the
too-many-requests status and stops: the server state (blacklist and
admission counter) is unchanged, no permit is acquired, no connection
is admitted and no supervisor task is spawned. -/
theorem c8_admission_denied (st : ServerState) (peer : Nat) (isUp ws : Bool)
    (upg : UpgradeOutcome) (h : st.maxConns ≤ st.live.length) :
    dispatchEvent st peer isUp ws upg
      = { response := HttpResponse.tooManyRequests, state := st, admitted := false,
          permitAcquired := false, permitReleasedNow := false,
          supervisorSpawned := false } := by
  simp [dispatchEvent, h]

/-- Witness for C8: a server with ceiling 1 and one live connection
rejects a fresh attempt from peer 9. -/
theorem c8_witness :
    dispatchEvent { maxConns := 1, live := [0], blacklist := [], nextId := 1 } 9 true true
        (UpgradeOutcome.ok (HttpResponse.fromWebsocket 0))
      = { response := HttpResponse.tooManyRequests,
          state := { maxConns := 1, live := [0], blacklist := [], nextId := 1 },
          admitted := false, permitAcquired := false, permitReleasedNow := false,
          supervisorSpawned := false } :=
  c8_admission_denied { maxConns := 1, live := [0], blacklist := [], nextId := 1 } 9 true true
    (UpgradeOutcome.ok (HttpResponse.fromWebsocket 0)) (by decide)

/-- C10: when `run_websocket` fails, its error response is returned to
the caller, no connection is admitted, no supervisor task is spawned,
and the server state — in particular the blacklist — is unchanged; the
permit acquired for the attempt is released. -/
theorem c10_upgrade_failure (st : ServerState) (peer : Nat) (rp : HttpResponse)
    (hcap : st.live.length < st.maxConns) (hbl : peer ∉ st.blacklist) :
    dispatchEvent st peer true true (UpgradeOutcome.err rp)
      = { response := rp, state := st, admitted := false, permitAcquired := true,
          permitReleasedNow := true, supervisorSpawned := false } := by
  have h1 : ¬ st.maxConns ≤ st.live.length := by omega
  simp [dispatchEvent, h1, hbl]

/-- Witness for C10: a failed upgrade on an empty server returns the
websocket error response and leaves the state untouched. -/
theorem c10_witness :
    dispatchEvent { maxConns := 100, live := [], blacklist := [], nextId := 0 } 4 true true
        (UpgradeOutcome.err (HttpResponse.fromWebsocket 5))
      = { response := HttpResponse.fromWebsocket 5,
          state := { maxConns := 100, live := [], blacklist := [], nextId := 0 },
          admitted := false, permitAcquired := true, permitReleasedNow := true,
          supervisorSpawned := false } :=
  c10_upgrade_failure { maxConns := 100, live := [], blacklist := [], nextId := 0 } 4
    (HttpResponse.fromWebsocket 5) (by decide) (by decide)

end Jsonrpsee
